import Mathlib

/-!
Verification development for the physics-flavored visual-effects scripts of
this repository.  The JavaScript sources are shallowly embedded over the real
numbers: every float becomes a real, JS `Math.sqrt` becomes `Real.sqrt`, and
fallible DOM/initialization paths become `Option`-matching functions whose
"thrown exception" outcomes are explicit constructors.  Stateful modules
(the Matter.js overlay's pause machinery, the mouse tracker) become explicit
state records with one transition function per event handler.
-/

/-- State of one DOM-backed point mass, mirroring the fields set by the
`PhysicsEntity` constructor: position, velocity, accumulated acceleration,
mass, damping factor, max speed and the stored rest position. -/
@[ext]
structure PhysicsEntity where
  x : ℝ
  y : ℝ
  vx : ℝ
  vy : ℝ
  ax : ℝ
  ay : ℝ
  mass : ℝ
  damping : ℝ
  maxSpeed : ℝ
  originalX : ℝ
  originalY : ℝ

/-- Embedding of `PhysicsEntity.applyForce`: forces accumulate into the
acceleration, divided by the mass. -/
noncomputable def PhysicsEntity.applyForce (e : PhysicsEntity) (fx fy : ℝ) :
    PhysicsEntity :=
  { e with ax := e.ax + fx / e.mass, ay := e.ay + fy / e.mass }

/-- Embedding of the speed-limit block of `PhysicsEntity.update`
(lines 53-58): if the speed exceeds `maxSpeed`, rescale the velocity to the
cap while preserving direction. -/
noncomputable def clampSpeed (vx vy maxSpeed : ℝ) : ℝ × ℝ :=
  let speed := Real.sqrt (vx * vx + vy * vy)
  if speed > maxSpeed then ((vx / speed) * maxSpeed, (vy / speed) * maxSpeed)
  else (vx, vy)

/-- Embedding of one axis of the boundary-bounce block of
`PhysicsEntity.update` (lines 64-83): crossing below `lo` or above `hi`
clamps the position to the crossed bound and multiplies the velocity
component by `-0.5`. -/
noncomputable def bounce1D (pos vel lo hi : ℝ) : ℝ × ℝ :=
  if pos < lo then (lo, vel * (-0.5))
  else if pos > hi then (hi, vel * (-0.5))
  else (pos, vel)

/-- Embedding of `PhysicsEntity.update` (spring force, velocity integration,
damping, speed clamp, position integration, boundary bounce with margin 100
against the viewport, acceleration reset).  The DOM `render` call is outside
the model. -/
noncomputable def PhysicsEntity.update (e : PhysicsEntity)
    (width height dt : ℝ) : PhysicsEntity :=
  let springStrength : ℝ := 0.0005
  let dx := e.originalX - e.x
  let dy := e.originalY - e.y
  let e1 := e.applyForce (dx * springStrength) (dy * springStrength)
  let vx1 := (e1.vx + e1.ax * dt) * e1.damping
  let vy1 := (e1.vy + e1.ay * dt) * e1.damping
  let v2 := clampSpeed vx1 vy1 e1.maxSpeed
  let margin : ℝ := 100
  let bx := bounce1D (e1.x + v2.1 * dt) v2.1 margin (width - margin)
  let b2 := bounce1D (e1.y + v2.2 * dt) v2.2 margin (height - margin)
  { e1 with x := bx.1, vx := bx.2, y := b2.1, vy := b2.2, ax := 0, ay := 0 }

/-- Embedding of `PhysicsEntity.distanceTo`. -/
noncomputable def PhysicsEntity.distanceTo (e : PhysicsEntity) (x y : ℝ) : ℝ :=
  Real.sqrt ((x - e.x) * (x - e.x) + (y - e.y) * (y - e.y))

/-- Constants and pointer state of `PhysicsWorld` (the constructor sets
`gravity = 0.3`, `gravityRadius = 300`, `repulsionRadius = 100`). -/
structure PhysicsWorld where
  mouseX : ℝ
  mouseY : ℝ
  gravity : ℝ
  gravityRadius : ℝ
  repulsionRadius : ℝ

/-- Force computed by `PhysicsWorld.applyGravity` for one entity: attractive
inside the gravity annulus, repulsive inside the repulsion disc (above the
10px singularity guard), zero elsewhere. -/
noncomputable def PhysicsWorld.gravityForce (w : PhysicsWorld)
    (e : PhysicsEntity) : ℝ × ℝ :=
  let dx := w.mouseX - e.x
  let dy := w.mouseY - e.y
  let distance := Real.sqrt (dx * dx + dy * dy)
  if distance < w.gravityRadius ∧ distance > w.repulsionRadius then
    let force := (w.gravity * e.mass) / (distance * 0.01)
    ((dx / distance) * force, (dy / distance) * force)
  else if distance ≤ w.repulsionRadius ∧ distance > 10 then
    let force := (2 * e.mass) / (distance * 0.01)
    (-(dx / distance) * force, -(dy / distance) * force)
  else (0, 0)

/-- Embedding of `PhysicsWorld.applyGravity`: the computed field force is
accumulated into the entity through `applyForce` (taking the branch where a
force exists; outside both radii the entity is untouched, and accumulating
the zero force leaves the acceleration unchanged up to `+ 0`). -/
noncomputable def PhysicsWorld.applyGravity (w : PhysicsWorld)
    (e : PhysicsEntity) : PhysicsEntity :=
  e.applyForce (w.gravityForce e).1 (w.gravityForce e).2

/-- Force that `PhysicsWorld.applyEntityRepulsion` applies to the first
entity of a pair (the second receives the negation): fixed magnitude 0.5
along the separation axis when the pair is closer than 150 but not
colocated. -/
noncomputable def repulsionForceOn1 (e1 e2 : PhysicsEntity) : ℝ × ℝ :=
  let dx := e2.x - e1.x
  let dy := e2.y - e1.y
  let distance := Real.sqrt (dx * dx + dy * dy)
  let minDistance : ℝ := 150
  if distance < minDistance ∧ distance > 0 then
    let force : ℝ := 0.5
    (-(dx / distance) * force, -(dy / distance) * force)
  else (0, 0)

/-- Embedding of the body of the inner loop of
`PhysicsWorld.applyEntityRepulsion` for one unordered pair `(e1, e2)`:
when within 150px and not colocated, `e1` gets `(fx, fy)` and `e2` gets
`(-fx, -fy)`; otherwise both are untouched. -/
noncomputable def applyEntityRepulsionPair (e1 e2 : PhysicsEntity) :
    PhysicsEntity × PhysicsEntity :=
  let dx := e2.x - e1.x
  let dy := e2.y - e1.y
  let distance := Real.sqrt (dx * dx + dy * dy)
  let minDistance : ℝ := 150
  if distance < minDistance ∧ distance > 0 then
    let force : ℝ := 0.5
    let fx := -(dx / distance) * force
    let fy := -(dy / distance) * force
    (e1.applyForce fx fy, e2.applyForce (-fx) (-fy))
  else (e1, e2)

/-- Embedding of `GravityBlog.applyClickForce` for one entity: a uniform
outward force of magnitude 10 from the click point, applied within 300px
when not colocated. -/
noncomputable def applyClickForce (clickX clickY : ℝ) (e : PhysicsEntity) :
    PhysicsEntity :=
  let dx := e.x - clickX
  let dy := e.y - clickY
  let distance := Real.sqrt (dx * dx + dy * dy)
  if distance < 300 ∧ distance > 0 then
    let force : ℝ := 10
    e.applyForce ((dx / distance) * force) ((dy / distance) * force)
  else e

/-- Distance from the field source to an entity, as computed at the top of
`PhysicsWorld.applyGravity`. -/
noncomputable def gravityDistance (w : PhysicsWorld) (e : PhysicsEntity) : ℝ :=
  Real.sqrt ((w.mouseX - e.x) * (w.mouseX - e.x) +
    (w.mouseY - e.y) * (w.mouseY - e.y))

/-- Guard of the two dividing branches of `PhysicsWorld.applyGravity`: the
force formulas divide by the distance exactly when this proposition holds. -/
def gravityDivides (w : PhysicsWorld) (e : PhysicsEntity) : Prop :=
  (gravityDistance w e < w.gravityRadius ∧
    gravityDistance w e > w.repulsionRadius) ∨
  (gravityDistance w e ≤ w.repulsionRadius ∧ gravityDistance w e > 10)

/-- Distance between the two entities of a pair, as computed in
`PhysicsWorld.applyEntityRepulsion`. -/
noncomputable def pairDistance (e1 e2 : PhysicsEntity) : ℝ :=
  Real.sqrt ((e2.x - e1.x) * (e2.x - e1.x) + (e2.y - e1.y) * (e2.y - e1.y))

/-- Guard of the dividing branch of `PhysicsWorld.applyEntityRepulsion`. -/
def pairDivides (e1 e2 : PhysicsEntity) : Prop :=
  pairDistance e1 e2 < 150 ∧ pairDistance e1 e2 > 0

/-- Distance from the click point to an entity, as computed in
`GravityBlog.applyClickForce`. -/
noncomputable def clickDistance (clickX clickY : ℝ) (e : PhysicsEntity) : ℝ :=
  Real.sqrt ((e.x - clickX) * (e.x - clickX) + (e.y - clickY) * (e.y - clickY))

/-- Guard of the dividing branch of `GravityBlog.applyClickForce`. -/
def clickDivides (clickX clickY : ℝ) (e : PhysicsEntity) : Prop :=
  clickDistance clickX clickY e < 300 ∧ clickDistance clickX clickY e > 0

/-- Rigid body of the Matter.js overlay, reduced to what `applyMouseForce`
touches: a position and the force accumulated through
`Matter.Body.applyForce`. -/
structure RigidBody where
  px : ℝ
  py : ℝ
  fx : ℝ
  fy : ℝ

/-- Distance from the tracked pointer to a rigid body, as computed in
`applyMouseForce` of `physics-engine.js`. -/
noncomputable def steerDistance (mx my : ℝ) (b : RigidBody) : ℝ :=
  Real.sqrt ((mx - b.px) * (mx - b.px) + (my - b.py) * (my - b.py))

/-- Guard of the dividing branch of `applyMouseForce` in
`physics-engine.js`, with the device-dependent interaction radius as a
parameter. -/
def steerDivides (mx my radius : ℝ) (b : RigidBody) : Prop :=
  steerDistance mx my b < radius ∧ steerDistance mx my b > 0

/-- Steering force application of `applyMouseForce` in `physics-engine.js`
for one body: a unit-normalized force of magnitude 0.0005 toward the
pointer, applied within the interaction radius when not colocated. -/
noncomputable def applyMouseForceBody (mx my radius : ℝ) (b : RigidBody) :
    RigidBody :=
  let dx := mx - b.px
  let dy := my - b.py
  let distance := Real.sqrt (dx * dx + dy * dy)
  if distance < radius ∧ distance > 0 then
    { b with fx := b.fx + (dx / distance) * 0.0005,
             fy := b.fy + (dy / distance) * 0.0005 }
  else b

/-- Star particle of `particles.js`, reduced to the fields touched by
`ParticleSystem.updateParticle`. -/
structure StarParticle where
  x : ℝ
  y : ℝ
  speedX : ℝ
  speedY : ℝ

/-- Distance from the pointer to a star after the drift step, as computed
in the mouse-influence block of `ParticleSystem.updateParticle`
(`particles.js` lines 87-89). -/
noncomputable def starDistance (mx my px py : ℝ) : ℝ :=
  Real.sqrt ((mx - px) * (mx - px) + (my - py) * (my - py))

/-- Guard of the dividing branch of the mouse-influence block of
`ParticleSystem.updateParticle` (`particles.js` line 92): only
`distance < influenceRadius (200)` is checked, with no lower bound. -/
def starDivides (mx my px py : ℝ) : Prop :=
  starDistance mx my px py < 200

/-- Embedding of `ParticleSystem.updateParticle`: drift, pointer-repulsion
nudge within 200px (dividing by the distance), then toroidal wrap at the
canvas edges. -/
noncomputable def updateParticle (mx my width height : ℝ) (p : StarParticle) :
    StarParticle :=
  let px := p.x + p.speedX
  let py := p.y + p.speedY
  let dx := mx - px
  let dy := my - py
  let distance := Real.sqrt (dx * dx + dy * dy)
  let influenceRadius : ℝ := 200
  let px := if distance < influenceRadius then
      px - (dx / distance) * ((influenceRadius - distance) / influenceRadius) * 0.5
    else px
  let py := if distance < influenceRadius then
      py - (dy / distance) * ((influenceRadius - distance) / influenceRadius) * 0.5
    else py
  let px := if px < 0 then width else px
  let px := if px > width then 0 else px
  let py := if py < 0 then height else py
  let py := if py > height then 0 else py
  { p with x := px, y := py }

/-- Module state of `mouse-tracker.js`: the stored `mousePosition` and the
`isTracking` flag. -/
structure TrackerState where
  mouseX : ℝ
  mouseY : ℝ
  isTracking : Bool

/-- Initial tracker module state: `mousePosition = (0, 0)`,
`isTracking = false`. -/
def trackerInit : TrackerState := ⟨0, 0, false⟩

/-- Events delivered to the tracker's canvas listeners.  Move and touch
events carry the client coordinates and the canvas bounding-rect offset
subtracted by the handlers; `touchEmpty` is a touch event whose `touches`
list is empty. -/
inductive TrackerEvent
  | mousemove (clientX clientY rectLeft rectTop : ℝ)
  | mouseenter
  | mouseleave
  | touch (clientX clientY rectLeft rectTop : ℝ)
  | touchEmpty
  | touchend

/-- One step of the tracker state machine, one case per listener installed
by `initMouseTracker` (`handleMouseMove`, the enter/leave closures,
`handleTouch`, the touchend closure). -/
def trackerStep (s : TrackerState) : TrackerEvent → TrackerState
  | .mousemove cx cy rl rt => ⟨cx - rl, cy - rt, true⟩
  | .mouseenter => { s with isTracking := true }
  | .mouseleave => { s with isTracking := false }
  | .touch cx cy rl rt => ⟨cx - rl, cy - rt, true⟩
  | .touchEmpty => s
  | .touchend => { s with isTracking := false }

/-- Embedding of `getMousePosition`: the stored position while tracking,
`null` otherwise. -/
def getMousePosition (s : TrackerState) : Option (ℝ × ℝ) :=
  if s.isTracking then some (s.mouseX, s.mouseY) else none

/-- Embedding of `applyMouseForce` of `physics-engine.js`: reads the tracked
pointer through `getMousePosition` and returns the bodies unchanged when it
is `null`, otherwise applies the steering force to every body. -/
noncomputable def applyMouseForce (s : TrackerState) (radius : ℝ)
    (bodies : List RigidBody) : List RigidBody :=
  match getMousePosition s with
  | none => bodies
  | some m => bodies.map (applyMouseForceBody m.1 m.2 radius)

/-- Outcome of a subsystem's initialization path. -/
inductive InitResult
  | initialized
  | skipped
  | crashed
deriving DecidableEq

/-- Embedding of `initPhysicsEngine` of `physics-engine.js` up to the point
where initialization is committed: the reduced-motion media query, the
`physics-canvas` lookup (`none` when the element is missing, otherwise
whether `getContext` succeeds), each failure logging one message and
returning. -/
def initPhysicsEngine (reducedMotion : Bool) (canvas : Option Bool) :
    InitResult × List String :=
  if reducedMotion then (.skipped, ["Reduced motion preferred - skipping physics"])
  else
    match canvas with
    | none => (.skipped, ["Canvas element not found"])
    | some ctxOk =>
      if ctxOk then (.initialized, []) else (.skipped, ["Could not get canvas context"])

/-- Embedding of `initMouseTracker` of `mouse-tracker.js`: a missing canvas
logs an error and returns without attaching listeners; otherwise listeners
are attached and the success message logged. -/
def initMouseTrackerRun (canvas : Option Unit) : Bool × List String :=
  match canvas with
  | none => (false, ["Canvas element required for mouse tracking"])
  | some _ => (true, ["Mouse tracker initialized"])

/-- Embedding of the `DOMContentLoaded` bootstrap of `particles.js`: the
`particles` canvas lookup result is passed unchecked into the
`ParticleSystem` constructor, whose first statements dereference it
(`canvas.getContext`), so a missing element throws a TypeError out of the
handler with nothing logged. -/
def particlesBootstrap (canvas : Option Unit) : InitResult × List String :=
  match canvas with
  | none => (.crashed, [])
  | some _ => (.initialized, [])

/-- Module state of the pause machinery of `physics-engine.js`: the
`isPaused` flag, whether a frame callback is scheduled (`animationId` is
not `null`), and the string stored under the localStorage key
`physics-paused` (`none` when the key is absent). -/
structure EngineState where
  isPaused : Bool
  running : Bool
  stored : Option String
deriving DecidableEq

/-- Embedding of `pauseSimulation`: sets `isPaused`, cancels the scheduled
frame, and writes `"true"` under `physics-paused`. -/
def pauseSimulation (s : EngineState) : EngineState :=
  { s with isPaused := true, running := false, stored := some "true" }

/-- Embedding of `startSimulation`: returns immediately when a frame is
already scheduled, otherwise starts the loop. -/
def startSimulation (s : EngineState) : EngineState :=
  if s.running then s else { s with running := true }

/-- Embedding of `resumeSimulation`: clears `isPaused`, restarts the loop,
and writes `"false"` under `physics-paused`. -/
def resumeSimulation (s : EngineState) : EngineState :=
  let s1 := startSimulation { s with isPaused := false }
  { s1 with stored := some "false" }

/-- Embedding of the `visibilitychange` listener of `physics-engine.js`:
hiding pauses a running simulation, and becoming visible resumes a paused
one only when the stored `physics-paused` value is not `"true"`. -/
def visibilityChange (hidden : Bool) (s : EngineState) : EngineState :=
  if hidden && !s.isPaused then pauseSimulation s
  else if !hidden && s.isPaused then
    if s.stored ≠ some "true" then resumeSimulation s else s
  else s

/-- Embedding of the toggle-button click listener installed by
`setupPauseToggle`. -/
def toggleClick (s : EngineState) : EngineState :=
  if s.isPaused then resumeSimulation s else pauseSimulation s

/-- Embedding of the saved-preference read at the top of
`setupPauseToggle`: a stored `"true"` pauses at startup. -/
def setupPauseToggleLoad (s : EngineState) : EngineState :=
  if s.stored = some "true" then pauseSimulation s else s

/-- Velocity after the spring force, velocity integration, damping and speed
clamp of `PhysicsEntity.update`, named so that facts about the boundary step
can be stated against the exact intermediate value of the integrator. -/
noncomputable def updVel (e : PhysicsEntity) (dt : ℝ) : ℝ × ℝ :=
  clampSpeed ((e.vx + (e.ax + (e.originalX - e.x) * 0.0005 / e.mass) * dt) * e.damping)
    ((e.vy + (e.ay + (e.originalY - e.y) * 0.0005 / e.mass) * dt) * e.damping)
    e.maxSpeed

/-- Sample entity used to instantiate universally quantified results. -/
noncomputable def exEntity : PhysicsEntity := ⟨300, 300, 1, 2, 0, 0, 1, 0.98, 3, 300, 300⟩

/-- Entity at rest at an interior rest position. -/
noncomputable def exRest : PhysicsEntity := ⟨500, 500, 0, 0, 0, 0, 1, 0.98, 3, 500, 500⟩

/-- Entity at rest at a rest position inside the 100px margin. -/
noncomputable def exRestEdge : PhysicsEntity := ⟨50, 500, 0, 0, 0, 0, 1, 0.98, 3, 50, 500⟩

/-- First entity of a sample pair, at the origin. -/
noncomputable def exP1 : PhysicsEntity := ⟨0, 0, 0, 0, 0, 0, 1, 0.98, 3, 0, 0⟩

/-- Second entity of a sample pair, 90px to the right of the first. -/
noncomputable def exP2 : PhysicsEntity := ⟨90, 0, 0, 0, 0, 0, 1, 0.98, 3, 90, 0⟩

/-- Sample world with the constructor constants and the pointer at
`(200, 0)`. -/
noncomputable def exWorld : PhysicsWorld := ⟨200, 0, 0.3, 300, 100⟩

/-- Engine pause state with the loop running and no stored preference. -/
def exEngineRunning : EngineState := ⟨false, true, none⟩

/-- Engine pause state reached by the startup sequence of
`initPhysicsEngine` when the stored `physics-paused` preference is
`"true"`: `setupPauseToggle` reads the flag and pauses, and then
`startSimulation` is called unconditionally, so the loop ends up running
with `isPaused` still set. -/
def exEngineStartupPaused : EngineState :=
  startSimulation (setupPauseToggleLoad ⟨false, false, some "true"⟩)

theorem bounce1D_of_lt {pos lo : ℝ} (vel hi : ℝ) (h : pos < lo) :
    bounce1D pos vel lo hi = (lo, vel * (-0.5)) := by
  simp [bounce1D, h]

theorem bounce1D_of_gt {pos lo hi : ℝ} (vel : ℝ) (h1 : ¬ pos < lo)
    (h2 : pos > hi) : bounce1D pos vel lo hi = (hi, vel * (-0.5)) := by
  simp [bounce1D, h1, h2]

theorem bounce1D_of_mid {pos lo hi : ℝ} (vel : ℝ) (h1 : ¬ pos < lo)
    (h2 : ¬ pos > hi) : bounce1D pos vel lo hi = (pos, vel) := by
  simp [bounce1D, h1, h2]

theorem bounce1D_pos_mem {lo hi : ℝ} (pos vel : ℝ) (h : lo ≤ hi) :
    lo ≤ (bounce1D pos vel lo hi).1 ∧ (bounce1D pos vel lo hi).1 ≤ hi := by
  unfold bounce1D
  split_ifs with h1 h2
  · exact ⟨le_refl lo, h⟩
  · exact ⟨h, le_refl hi⟩
  · exact ⟨le_of_not_lt h1, le_of_not_lt h2⟩

theorem bounce1D_vel_sq_le (pos vel lo hi : ℝ) :
    (bounce1D pos vel lo hi).2 * (bounce1D pos vel lo hi).2 ≤ vel * vel := by
  unfold bounce1D
  split_ifs <;> simp <;> nlinarith [mul_self_nonneg vel]

theorem clampSpeed_sq_le (vx vy : ℝ) {m : ℝ} (hm : 0 ≤ m) :
    (clampSpeed vx vy m).1 * (clampSpeed vx vy m).1 +
      (clampSpeed vx vy m).2 * (clampSpeed vx vy m).2 ≤ m * m := by
  unfold clampSpeed
  by_cases h : Real.sqrt (vx * vx + vy * vy) > m
  · rw [if_pos h]
    have hs0 : 0 < Real.sqrt (vx * vx + vy * vy) := lt_of_le_of_lt hm h
    have hssq : Real.sqrt (vx * vx + vy * vy) * Real.sqrt (vx * vx + vy * vy)
        = vx * vx + vy * vy :=
      Real.mul_self_sqrt (add_nonneg (mul_self_nonneg vx) (mul_self_nonneg vy))
    have hne : Real.sqrt (vx * vx + vy * vy) ≠ 0 := ne_of_gt hs0
    have key : vx / Real.sqrt (vx * vx + vy * vy) * m *
        (vx / Real.sqrt (vx * vx + vy * vy) * m) +
        vy / Real.sqrt (vx * vx + vy * vy) * m *
        (vy / Real.sqrt (vx * vx + vy * vy) * m) = m * m := by
      have expand : vx / Real.sqrt (vx * vx + vy * vy) * m *
          (vx / Real.sqrt (vx * vx + vy * vy) * m) +
          vy / Real.sqrt (vx * vx + vy * vy) * m *
          (vy / Real.sqrt (vx * vx + vy * vy) * m) =
          (vx * vx + vy * vy) /
            (Real.sqrt (vx * vx + vy * vy) * Real.sqrt (vx * vx + vy * vy)) *
            (m * m) := by ring
      rw [expand, hssq, div_self (ne_of_gt (Real.sqrt_pos.mp hs0)), one_mul]
    exact le_of_eq key
  · rw [if_neg h]
    have hle : Real.sqrt (vx * vx + vy * vy) ≤ m := not_lt.mp h
    have := Real.mul_self_sqrt
      (add_nonneg (mul_self_nonneg vx) (mul_self_nonneg vy))
    calc vx * vx + vy * vy
        = Real.sqrt (vx * vx + vy * vy) * Real.sqrt (vx * vx + vy * vy) := this.symm
      _ ≤ m * m := mul_self_le_mul_self (Real.sqrt_nonneg _) hle

theorem clampSpeed_zero {m : ℝ} (hm : 0 ≤ m) : clampSpeed 0 0 m = (0, 0) := by
  unfold clampSpeed
  rw [if_neg]
  intro h
  rw [show ((0:ℝ) * 0 + 0 * 0) = 0 by ring, Real.sqrt_zero] at h
  exact absurd hm (not_le.mpr h)

theorem update_eq (e : PhysicsEntity) (width height dt : ℝ) :
    e.update width height dt =
      { e with
        x := (bounce1D (e.x + (updVel e dt).1 * dt) (updVel e dt).1
          100 (width - 100)).1,
        vx := (bounce1D (e.x + (updVel e dt).1 * dt) (updVel e dt).1
          100 (width - 100)).2,
        y := (bounce1D (e.y + (updVel e dt).2 * dt) (updVel e dt).2
          100 (height - 100)).1,
        vy := (bounce1D (e.y + (updVel e dt).2 * dt) (updVel e dt).2
          100 (height - 100)).2,
        ax := 0, ay := 0 } := rfl

theorem pairDistance_ex : pairDistance exP1 exP2 = 90 := by
  unfold pairDistance exP1 exP2
  rw [show ((90:ℝ) - 0) * (90 - 0) + (0 - 0) * (0 - 0) = 90 ^ 2 by norm_num,
    Real.sqrt_sq (by norm_num : (0:ℝ) ≤ 90)]

theorem gravityDistance_ex : gravityDistance exWorld exP1 = 200 := by
  unfold gravityDistance exWorld exP1
  rw [show ((200:ℝ) - 0) * (200 - 0) + (0 - 0) * (0 - 0) = 200 ^ 2 by norm_num,
    Real.sqrt_sq (by norm_num : (0:ℝ) ≤ 200)]

/-- C2: For every point mass and every accumulated acceleration and time
delta, after one full integration step of `PhysicsEntity.update` (spring
force, velocity integration, damping, speed clamp, position integration,
boundary bounce, acceleration reset), the velocity magnitude satisfies
`|velocity| <= maxSpeed (3)`. -/
theorem C2_velocity_clamped (e : PhysicsEntity) (width height dt : ℝ)
    (hms : e.maxSpeed = 3) :
    Real.sqrt ((e.update width height dt).vx * (e.update width height dt).vx +
      (e.update width height dt).vy * (e.update width height dt).vy) ≤ 3 := by
  have hvx : (e.update width height dt).vx =
      (bounce1D (e.x + (updVel e dt).1 * dt) (updVel e dt).1
        100 (width - 100)).2 := by
    rw [update_eq]
  have hvy : (e.update width height dt).vy =
      (bounce1D (e.y + (updVel e dt).2 * dt) (updVel e dt).2
        100 (height - 100)).2 := by
    rw [update_eq]
  have h1 : (updVel e dt).1 * (updVel e dt).1 +
      (updVel e dt).2 * (updVel e dt).2 ≤ e.maxSpeed * e.maxSpeed := by
    unfold updVel
    exact clampSpeed_sq_le _ _ (by rw [hms]; norm_num)
  rw [hms] at h1
  have h2 := bounce1D_vel_sq_le (e.x + (updVel e dt).1 * dt) (updVel e dt).1
    100 (width - 100)
  have h3 := bounce1D_vel_sq_le (e.y + (updVel e dt).2 * dt) (updVel e dt).2
    100 (height - 100)
  have h4 : (e.update width height dt).vx * (e.update width height dt).vx +
      (e.update width height dt).vy * (e.update width height dt).vy ≤ 9 := by
    rw [hvx, hvy]; linarith
  calc Real.sqrt ((e.update width height dt).vx * (e.update width height dt).vx +
        (e.update width height dt).vy * (e.update width height dt).vy)
      ≤ Real.sqrt 9 := Real.sqrt_le_sqrt h4
    _ = 3 := by
        rw [show (9:ℝ) = 3 ^ 2 by norm_num,
          Real.sqrt_sq (by norm_num : (0:ℝ) ≤ 3)]

/-- Witness for C2 at a concrete entity, viewport and time delta. -/
theorem C2_velocity_clamped_witness :
    Real.sqrt ((exEntity.update 1000 800 1).vx * (exEntity.update 1000 800 1).vx +
      (exEntity.update 1000 800 1).vy * (exEntity.update 1000 800 1).vy) ≤ 3 :=
  C2_velocity_clamped exEntity 1000 800 1 rfl

/-- C9: For every point mass and every input state, provided the viewport
satisfies `width >= 200` and `height >= 200`, the position after a full
`PhysicsEntity.update` step lies within the margin box
`[100, width - 100] x [100, height - 100]`. -/
theorem C9_position_in_margin_box (e : PhysicsEntity) (width height dt : ℝ)
    (hw : 200 ≤ width) (hh : 200 ≤ height) :
    100 ≤ (e.update width height dt).x ∧
      (e.update width height dt).x ≤ width - 100 ∧
      100 ≤ (e.update width height dt).y ∧
      (e.update width height dt).y ≤ height - 100 := by
  have hx : (e.update width height dt).x =
      (bounce1D (e.x + (updVel e dt).1 * dt) (updVel e dt).1
        100 (width - 100)).1 := by
    rw [update_eq]
  have hy : (e.update width height dt).y =
      (bounce1D (e.y + (updVel e dt).2 * dt) (updVel e dt).2
        100 (height - 100)).1 := by
    rw [update_eq]
  have h1 := bounce1D_pos_mem (e.x + (updVel e dt).1 * dt) (updVel e dt).1
    (by linarith : (100:ℝ) ≤ width - 100)
  have h2 := bounce1D_pos_mem (e.y + (updVel e dt).2 * dt) (updVel e dt).2
    (by linarith : (100:ℝ) ≤ height - 100)
  rw [hx, hy]
  exact ⟨h1.1, h1.2, h2.1, h2.2⟩

/-- Witness for C9 at a concrete entity, viewport and time delta. -/
theorem C9_position_in_margin_box_witness :
    100 ≤ (exEntity.update 1000 800 1).x ∧
      (exEntity.update 1000 800 1).x ≤ 1000 - 100 ∧
      100 ≤ (exEntity.update 1000 800 1).y ∧
      (exEntity.update 1000 800 1).y ≤ 800 - 100 :=
  C9_position_in_margin_box exEntity 1000 800 1 (by norm_num) (by norm_num)

/-- C7: The boundary step of the integrator repositions a point mass driven
below `x = margin (100)` to exactly the margin and multiplies its
x-velocity by `-0.5`, and symmetrically for the other three viewport edges
(for a viewport of at least twice the margin in each dimension). -/
theorem C7_boundary_bounce (x vx y vy width height : ℝ)
    (hw : 200 ≤ width) (hh : 200 ≤ height) :
    (x < 100 → bounce1D x vx 100 (width - 100) = (100, vx * (-0.5))) ∧
    (width - 100 < x →
      bounce1D x vx 100 (width - 100) = (width - 100, vx * (-0.5))) ∧
    (y < 100 → bounce1D y vy 100 (height - 100) = (100, vy * (-0.5))) ∧
    (height - 100 < y →
      bounce1D y vy 100 (height - 100) = (height - 100, vy * (-0.5))) := by
  refine ⟨fun h => bounce1D_of_lt _ _ h,
    fun h => bounce1D_of_gt _ (not_lt.mpr (by linarith)) h,
    fun h => bounce1D_of_lt _ _ h,
    fun h => bounce1D_of_gt _ (not_lt.mpr (by linarith)) h⟩

/-- Witness for C7: a point mass driven to `x = 50` bounces to the left
margin. -/
theorem C7_boundary_bounce_witness :
    bounce1D 50 2 100 (1000 - 100) = (100, 2 * (-0.5)) :=
  (C7_boundary_bounce 50 2 500 1 1000 800 (by norm_num) (by norm_num)).1
    (by norm_num)

/-- C6 amended: For every point mass with zero velocity, zero accumulated
acceleration and position equal to its rest position, with no external force
applied, a nonnegative max speed and a rest position inside the margin box,
repeated integration steps leave the whole state (in particular the
position) unchanged. -/
theorem C6_rest_fixed_point (e : PhysicsEntity) (width height dt : ℝ)
    (hvx : e.vx = 0) (hvy : e.vy = 0) (hax : e.ax = 0) (hay : e.ay = 0)
    (hx : e.x = e.originalX) (hy : e.y = e.originalY)
    (hms : 0 ≤ e.maxSpeed)
    (hx1 : 100 ≤ e.x) (hx2 : e.x ≤ width - 100)
    (hy1 : 100 ≤ e.y) (hy2 : e.y ≤ height - 100) :
    ∀ n : ℕ, (fun s : PhysicsEntity => s.update width height dt)^[n] e = e := by
  intro n
  apply Function.iterate_fixed
  show e.update width height dt = e
  rw [update_eq]
  have hv : updVel e dt = (0, 0) := by
    unfold updVel
    rw [hvx, hvy, hax, hay, hx, hy]
    simp only [sub_self, zero_mul, zero_div, add_zero, zero_add]
    exact clampSpeed_zero hms
  rw [hv]
  have hbx : bounce1D (e.x + (0:ℝ) * dt) 0 100 (width - 100) = (e.x, 0) := by
    rw [zero_mul, add_zero]
    exact bounce1D_of_mid _ (not_lt.mpr hx1) (not_lt.mpr hx2)
  have hby : bounce1D (e.y + (0:ℝ) * dt) 0 100 (height - 100) = (e.y, 0) := by
    rw [zero_mul, add_zero]
    exact bounce1D_of_mid _ (not_lt.mpr hy1) (not_lt.mpr hy2)
  simp only [hbx, hby]
  ext <;> simp [hvx, hvy, hax, hay]

/-- Witness for the amended C6 at a concrete interior rest state. -/
theorem C6_rest_fixed_point_witness :
    (fun s : PhysicsEntity => s.update 1000 800 1)^[3] exRest = exRest :=
  C6_rest_fixed_point exRest 1000 800 1 rfl rfl rfl rfl rfl rfl
    (by norm_num [exRest]) (by norm_num [exRest]) (by norm_num [exRest])
    (by norm_num [exRest]) (by norm_num [exRest]) 3

/-- C6 counterexample: a point mass at rest at the rest position `(50, 500)`
(inside the 100px margin), with zero velocity and acceleration and no
external force, is moved by one integration step from `x = 50` to the
margin `x = 100`, so the rest position is not a fixed point as the claim
states it for every point mass. -/
theorem C6_counterexample :
    (exRestEdge.update 1000 800 1).x = 100 ∧ exRestEdge.x = 50 := by
  constructor
  · rw [update_eq]
    have hv : updVel exRestEdge 1 = (0, 0) := by
      unfold updVel exRestEdge
      simp only
      rw [show ((0:ℝ) + (0 + (50 - 50) * 0.0005 / 1) * 1) * 0.98 = 0 by norm_num,
        show ((0:ℝ) + (0 + (500 - 500) * 0.0005 / 1) * 1) * 0.98 = 0 by norm_num]
      exact clampSpeed_zero (by norm_num)
    rw [hv]
    have hb : bounce1D (exRestEdge.x + (0:ℝ) * 1) 0 100 (1000 - 100) =
        (100, 0 * (-0.5)) :=
      bounce1D_of_lt _ _ (by norm_num [exRestEdge])
    simp only [hb]
  · rfl

/-- C1: For every point mass at distance `d` from the field source (with the
constructor constants and a positive mass), the field force computed by
`applyGravity` before integration is: attractive with magnitude
`0.3 * m / (d * 0.01)` directed toward the source when `100 < d < 300`;
repulsive with magnitude `2 * m / (d * 0.01)` directed away from the source
when `10 < d <= 100`; and zero when `d <= 10` or `d >= 300`. -/
theorem C1_field_force (w : PhysicsWorld) (e : PhysicsEntity) (d : ℝ)
    (hg : w.gravity = 0.3) (hgr : w.gravityRadius = 300)
    (hrr : w.repulsionRadius = 100) (hm : 0 < e.mass)
    (hd : d = gravityDistance w e) :
    (100 < d → d < 300 →
      w.gravityForce e =
        ((w.mouseX - e.x) / d * (0.3 * e.mass / (d * 0.01)),
         (w.mouseY - e.y) / d * (0.3 * e.mass / (d * 0.01))) ∧
      Real.sqrt ((w.gravityForce e).1 * (w.gravityForce e).1 +
        (w.gravityForce e).2 * (w.gravityForce e).2) =
        0.3 * e.mass / (d * 0.01) ∧
      0 < (w.gravityForce e).1 * (w.mouseX - e.x) +
        (w.gravityForce e).2 * (w.mouseY - e.y)) ∧
    (10 < d → d ≤ 100 →
      w.gravityForce e =
        (-((w.mouseX - e.x) / d) * (2 * e.mass / (d * 0.01)),
         -((w.mouseY - e.y) / d) * (2 * e.mass / (d * 0.01))) ∧
      Real.sqrt ((w.gravityForce e).1 * (w.gravityForce e).1 +
        (w.gravityForce e).2 * (w.gravityForce e).2) =
        2 * e.mass / (d * 0.01) ∧
      (w.gravityForce e).1 * (w.mouseX - e.x) +
        (w.gravityForce e).2 * (w.mouseY - e.y) < 0) ∧
    ((d ≤ 10 ∨ 300 ≤ d) → w.gravityForce e = (0, 0)) := by
  have hsd : Real.sqrt ((w.mouseX - e.x) * (w.mouseX - e.x) +
      (w.mouseY - e.y) * (w.mouseY - e.y)) = d := by
    rw [hd]; rfl
  have hSnn : (0:ℝ) ≤ (w.mouseX - e.x) * (w.mouseX - e.x) +
      (w.mouseY - e.y) * (w.mouseY - e.y) :=
    add_nonneg (mul_self_nonneg _) (mul_self_nonneg _)
  have hdd : ∀ hd0 : 0 < d,
      (w.mouseX - e.x) * (w.mouseX - e.x) +
        (w.mouseY - e.y) * (w.mouseY - e.y) = d * d := by
    intro _
    rw [← hsd]
    exact (Real.mul_self_sqrt hSnn).symm
  refine ⟨?_, ?_, ?_⟩
  · intro h1 h2
    have hd0 : (0:ℝ) < d := lt_trans (by norm_num) h1
    have hdne : d ≠ 0 := ne_of_gt hd0
    have hS := hdd hd0
    have hG : w.gravityForce e =
        ((w.mouseX - e.x) / d * (0.3 * e.mass / (d * 0.01)),
         (w.mouseY - e.y) / d * (0.3 * e.mass / (d * 0.01))) := by
      simp only [PhysicsWorld.gravityForce]
      rw [hsd, hg, hgr, hrr, if_pos ⟨h2, h1⟩]
    have hF0 : (0:ℝ) < 0.3 * e.mass / (d * 0.01) := by positivity
    refine ⟨hG, ?_, ?_⟩
    · rw [hG]
      have hmag : (w.mouseX - e.x) / d * (0.3 * e.mass / (d * 0.01)) *
          ((w.mouseX - e.x) / d * (0.3 * e.mass / (d * 0.01))) +
          (w.mouseY - e.y) / d * (0.3 * e.mass / (d * 0.01)) *
          ((w.mouseY - e.y) / d * (0.3 * e.mass / (d * 0.01))) =
          0.3 * e.mass / (d * 0.01) * (0.3 * e.mass / (d * 0.01)) := by
        have expand : (w.mouseX - e.x) / d * (0.3 * e.mass / (d * 0.01)) *
            ((w.mouseX - e.x) / d * (0.3 * e.mass / (d * 0.01))) +
            (w.mouseY - e.y) / d * (0.3 * e.mass / (d * 0.01)) *
            ((w.mouseY - e.y) / d * (0.3 * e.mass / (d * 0.01))) =
            ((w.mouseX - e.x) * (w.mouseX - e.x) +
              (w.mouseY - e.y) * (w.mouseY - e.y)) / (d * d) *
            (0.3 * e.mass / (d * 0.01) * (0.3 * e.mass / (d * 0.01))) := by
          ring
        rw [expand, hS, div_self (mul_ne_zero hdne hdne), one_mul]
      rw [hmag]
      exact Real.sqrt_mul_self (le_of_lt hF0)
    · rw [hG]
      have expand : (w.mouseX - e.x) / d * (0.3 * e.mass / (d * 0.01)) *
          (w.mouseX - e.x) +
          (w.mouseY - e.y) / d * (0.3 * e.mass / (d * 0.01)) *
          (w.mouseY - e.y) =
          ((w.mouseX - e.x) * (w.mouseX - e.x) +
            (w.mouseY - e.y) * (w.mouseY - e.y)) / d *
            (0.3 * e.mass / (d * 0.01)) := by
        ring
      rw [expand, hS, mul_div_assoc, div_self hdne, mul_one]
      positivity
  · intro h1 h2
    have hd0 : (0:ℝ) < d := lt_trans (by norm_num) h1
    have hdne : d ≠ 0 := ne_of_gt hd0
    have hS := hdd hd0
    have hnot : ¬ (d < 300 ∧ d > 100) := by
      rintro ⟨-, hgt⟩; linarith
    have hG : w.gravityForce e =
        (-((w.mouseX - e.x) / d) * (2 * e.mass / (d * 0.01)),
         -((w.mouseY - e.y) / d) * (2 * e.mass / (d * 0.01))) := by
      simp only [PhysicsWorld.gravityForce]
      rw [hsd, hg, hgr, hrr, if_neg hnot, if_pos ⟨h2, h1⟩]
    have hF0 : (0:ℝ) < 2 * e.mass / (d * 0.01) := by positivity
    refine ⟨hG, ?_, ?_⟩
    · rw [hG]
      have hmag : -((w.mouseX - e.x) / d) * (2 * e.mass / (d * 0.01)) *
          (-((w.mouseX - e.x) / d) * (2 * e.mass / (d * 0.01))) +
          -((w.mouseY - e.y) / d) * (2 * e.mass / (d * 0.01)) *
          (-((w.mouseY - e.y) / d) * (2 * e.mass / (d * 0.01))) =
          2 * e.mass / (d * 0.01) * (2 * e.mass / (d * 0.01)) := by
        have expand : -((w.mouseX - e.x) / d) * (2 * e.mass / (d * 0.01)) *
            (-((w.mouseX - e.x) / d) * (2 * e.mass / (d * 0.01))) +
            -((w.mouseY - e.y) / d) * (2 * e.mass / (d * 0.01)) *
            (-((w.mouseY - e.y) / d) * (2 * e.mass / (d * 0.01))) =
            ((w.mouseX - e.x) * (w.mouseX - e.x) +
              (w.mouseY - e.y) * (w.mouseY - e.y)) / (d * d) *
            (2 * e.mass / (d * 0.01) * (2 * e.mass / (d * 0.01))) := by
          ring
        rw [expand, hS, div_self (mul_ne_zero hdne hdne), one_mul]
      rw [hmag]
      exact Real.sqrt_mul_self (le_of_lt hF0)
    · rw [hG]
      have expand : -((w.mouseX - e.x) / d) * (2 * e.mass / (d * 0.01)) *
          (w.mouseX - e.x) +
          -((w.mouseY - e.y) / d) * (2 * e.mass / (d * 0.01)) *
          (w.mouseY - e.y) =
          -(((w.mouseX - e.x) * (w.mouseX - e.x) +
            (w.mouseY - e.y) * (w.mouseY - e.y)) / d *
            (2 * e.mass / (d * 0.01))) := by
        ring
      rw [expand, hS, mul_div_assoc, div_self hdne, mul_one]
      simp only [neg_neg, neg_lt, neg_zero]
      positivity
  · intro h
    have hnot1 : ¬ (d < 300 ∧ d > 100) := by
      rcases h with h | h
      · rintro ⟨-, hgt⟩; linarith
      · rintro ⟨hlt, -⟩; linarith
    have hnot2 : ¬ (d ≤ 100 ∧ d > 10) := by
      rcases h with h | h
      · rintro ⟨-, hgt⟩; linarith
      · rintro ⟨hle, -⟩; linarith
    simp only [PhysicsWorld.gravityForce]
    rw [hsd, hg, hgr, hrr, if_neg hnot1, if_neg hnot2]

/-- Witness for C1: with the pointer at `(200, 0)` and an entity of mass 1
at the origin (distance 200, inside the attraction annulus), the field
force is the attractive formula. -/
theorem C1_field_force_witness :
    exWorld.gravityForce exP1 =
      ((exWorld.mouseX - exP1.x) / 200 * (0.3 * exP1.mass / (200 * 0.01)),
       (exWorld.mouseY - exP1.y) / 200 * (0.3 * exP1.mass / (200 * 0.01))) :=
  ((C1_field_force exWorld exP1 200 rfl rfl rfl (by norm_num [exP1])
    gravityDistance_ex.symm).1 (by norm_num) (by norm_num)).1

/-- C8: For every unordered pair of point masses at distance `0 < d < 150`,
the pairwise repulsion pass applies a force of exact magnitude 0.5 along
the separation axis to the first entity (pushing it away from the second),
and the second entity receives the exact negation of that force; pairs at
distance 0 or at least 150 receive no pairwise force. -/
theorem C8_pairwise_repulsion (e1 e2 : PhysicsEntity) (d : ℝ)
    (hd : d = pairDistance e1 e2) :
    (0 < d → d < 150 →
      Real.sqrt ((repulsionForceOn1 e1 e2).1 * (repulsionForceOn1 e1 e2).1 +
        (repulsionForceOn1 e1 e2).2 * (repulsionForceOn1 e1 e2).2) = 0.5 ∧
      (repulsionForceOn1 e1 e2).1 * (e2.x - e1.x) +
        (repulsionForceOn1 e1 e2).2 * (e2.y - e1.y) < 0 ∧
      applyEntityRepulsionPair e1 e2 =
        (e1.applyForce (repulsionForceOn1 e1 e2).1 (repulsionForceOn1 e1 e2).2,
         e2.applyForce (-(repulsionForceOn1 e1 e2).1)
           (-(repulsionForceOn1 e1 e2).2))) ∧
    ((d = 0 ∨ 150 ≤ d) →
      applyEntityRepulsionPair e1 e2 = (e1, e2) ∧
      repulsionForceOn1 e1 e2 = (0, 0)) := by
  have hsd : Real.sqrt ((e2.x - e1.x) * (e2.x - e1.x) +
      (e2.y - e1.y) * (e2.y - e1.y)) = d := by
    rw [hd]; rfl
  have hSnn : (0:ℝ) ≤ (e2.x - e1.x) * (e2.x - e1.x) +
      (e2.y - e1.y) * (e2.y - e1.y) :=
    add_nonneg (mul_self_nonneg _) (mul_self_nonneg _)
  constructor
  · intro h0 h150
    have hdne : d ≠ 0 := ne_of_gt h0
    have hS : (e2.x - e1.x) * (e2.x - e1.x) + (e2.y - e1.y) * (e2.y - e1.y)
        = d * d := by
      rw [← hsd]
      exact (Real.mul_self_sqrt hSnn).symm
    have hF : repulsionForceOn1 e1 e2 =
        (-((e2.x - e1.x) / d) * 0.5, -((e2.y - e1.y) / d) * 0.5) := by
      simp only [repulsionForceOn1]
      rw [hsd, if_pos ⟨h150, h0⟩]
    refine ⟨?_, ?_, ?_⟩
    · rw [hF]
      have hmag : -((e2.x - e1.x) / d) * 0.5 * (-((e2.x - e1.x) / d) * 0.5) +
          -((e2.y - e1.y) / d) * 0.5 * (-((e2.y - e1.y) / d) * 0.5) =
          (0.5:ℝ) * 0.5 := by
        have expand : -((e2.x - e1.x) / d) * 0.5 * (-((e2.x - e1.x) / d) * 0.5) +
            -((e2.y - e1.y) / d) * 0.5 * (-((e2.y - e1.y) / d) * 0.5) =
            ((e2.x - e1.x) * (e2.x - e1.x) + (e2.y - e1.y) * (e2.y - e1.y)) /
              (d * d) * ((0.5:ℝ) * 0.5) := by
          ring
        rw [expand, hS, div_self (mul_ne_zero hdne hdne), one_mul]
      rw [hmag]
      rw [show ((0.5:ℝ) * 0.5) = 0.5 ^ 2 by norm_num,
        Real.sqrt_sq (by norm_num : (0:ℝ) ≤ 0.5)]
    · rw [hF]
      have expand : -((e2.x - e1.x) / d) * 0.5 * (e2.x - e1.x) +
          -((e2.y - e1.y) / d) * 0.5 * (e2.y - e1.y) =
          -(((e2.x - e1.x) * (e2.x - e1.x) + (e2.y - e1.y) * (e2.y - e1.y)) / d
            * 0.5) := by
        ring
      rw [expand, hS, mul_div_assoc, div_self hdne, mul_one]
      simp only [neg_lt, neg_zero]
      positivity
    · rw [hF]
      simp only [applyEntityRepulsionPair]
      rw [hsd, if_pos ⟨h150, h0⟩]
  · intro h
    have hnot : ¬ (d < 150 ∧ d > 0) := by
      rcases h with h | h
      · rintro ⟨-, hgt⟩; exact absurd h (ne_of_gt hgt)
      · rintro ⟨hlt, -⟩; linarith
    constructor
    · simp only [applyEntityRepulsionPair]
      rw [hsd, if_neg hnot]
    · simp only [repulsionForceOn1]
      rw [hsd, if_neg hnot]

/-- Witness for C8 at two concrete entities 90px apart: the pair function
takes the repulsion branch and the second entity receives the negated
force. -/
theorem C8_pairwise_repulsion_witness :
    applyEntityRepulsionPair exP1 exP2 =
      (exP1.applyForce (repulsionForceOn1 exP1 exP2).1
        (repulsionForceOn1 exP1 exP2).2,
       exP2.applyForce (-(repulsionForceOn1 exP1 exP2).1)
         (-(repulsionForceOn1 exP1 exP2).2)) :=
  ((C8_pairwise_repulsion exP1 exP2 90 pairDistance_ex.symm).1
    (by norm_num) (by norm_num)).2.2

/-- C3 counterexample: the star-field pointer nudge of
`ParticleSystem.updateParticle` has no minimum-distance threshold: its guard
(`distance < 200`) holds at distance exactly 0 (pointer on the star), where
the code divides `dx / distance` anyway (`0 / 0`, NaN in the source
language), so not every distance normalization is protected as the claim
states. -/
theorem C3_counterexample :
    starDivides 0 0 0 0 ∧ starDistance 0 0 0 0 = 0 := by
  have h : starDistance 0 0 0 0 = 0 := by
    unfold starDistance
    rw [show ((0:ℝ) - 0) * (0 - 0) + (0 - 0) * (0 - 0) = 0 by ring,
      Real.sqrt_zero]
  exact ⟨by unfold starDivides; rw [h]; norm_num, h⟩

/-- C3 amended: the entity field force, the pairwise entity repulsion, the
click impulse and the rigid-body steering force each divide by the distance
only under a guard that bounds it away from zero (strictly above 10 for the
field force with the constructor constants, strictly positive for the
others); the star-field pointer nudge checks only `distance < 200` and its
guard also holds at distance exactly 0. -/
theorem C3_division_guards :
    (∀ (w : PhysicsWorld) (e : PhysicsEntity), w.repulsionRadius = 100 →
      gravityDivides w e → 10 < gravityDistance w e) ∧
    (∀ e1 e2 : PhysicsEntity, pairDivides e1 e2 → 0 < pairDistance e1 e2) ∧
    (∀ (cx cy : ℝ) (e : PhysicsEntity), clickDivides cx cy e →
      0 < clickDistance cx cy e) ∧
    (∀ (mx my radius : ℝ) (b : RigidBody), steerDivides mx my radius b →
      0 < steerDistance mx my b) ∧
    (starDivides 0 0 0 0 ∧ starDistance 0 0 0 0 = 0) := by
  refine ⟨?_, ?_, ?_, ?_, ?_⟩
  · intro w e hrr h
    rcases h with ⟨-, hgt⟩ | ⟨-, hgt⟩
    · rw [hrr] at hgt; linarith
    · exact hgt
  · exact fun e1 e2 h => h.2
  · exact fun cx cy e h => h.2
  · exact fun mx my radius b h => h.2
  · have h : starDistance 0 0 0 0 = 0 := by
      unfold starDistance
      rw [show ((0:ℝ) - 0) * (0 - 0) + (0 - 0) * (0 - 0) = 0 by ring,
        Real.sqrt_zero]
    exact ⟨by unfold starDivides; rw [h]; norm_num, h⟩

/-- Witness for the amended C3: the pairwise-repulsion guard at the two
sample entities 90px apart implies a positive distance. -/
theorem C3_division_guards_witness : 0 < pairDistance exP1 exP2 :=
  C3_division_guards.2.1 exP1 exP2
    (by rw [pairDivides, pairDistance_ex]; norm_num)

/-- C4 counterexample: the star-field bootstrap of `particles.js` passes the
result of the `particles` element lookup unchecked into the `ParticleSystem`
constructor, which dereferences it; with the element missing, the subsystem
crashes (a TypeError propagates out of the `DOMContentLoaded` handler) and
nothing is logged, contradicting the claim that every subsystem logs and
silently skips. -/
theorem C4_counterexample :
    particlesBootstrap none = (InitResult.crashed, []) := rfl

/-- C4 amended: the Matter.js overlay (`initPhysicsEngine`) and the mouse
tracker log a message and skip initialization when their DOM element or
context is missing, but the star-field bootstrap of `particles.js` crashes
with nothing logged when its canvas is missing. -/
theorem C4_missing_dom_handling :
    initPhysicsEngine false none =
      (InitResult.skipped, ["Canvas element not found"]) ∧
    initPhysicsEngine false (some false) =
      (InitResult.skipped, ["Could not get canvas context"]) ∧
    initPhysicsEngine true none =
      (InitResult.skipped, ["Reduced motion preferred - skipping physics"]) ∧
    initMouseTrackerRun none =
      (false, ["Canvas element required for mouse tracking"]) ∧
    particlesBootstrap none = (InitResult.crashed, []) :=
  ⟨rfl, rfl, rfl, rfl, rfl⟩

/-- C5 counterexample: in the state reached at startup with a stored
`physics-paused` value of `"true"` (the saved-preference read pauses, after
which `startSimulation` runs unconditionally), the loop is running with
`isPaused` set, and a `visibilitychange` to hidden leaves the frame loop
running — its handler guards on `!isPaused` — so hiding while the loop is
running does not always stop frame scheduling as the claim states. -/
theorem C5_counterexample :
    exEngineStartupPaused.running = true ∧
    exEngineStartupPaused.isPaused = true ∧
    (visibilityChange true exEngineStartupPaused).running = true :=
  ⟨rfl, rfl, rfl⟩

/-- C5 amended: a `visibilitychange` to hidden while the loop is running
stops frame scheduling provided `isPaused` is clear (the handler's own
guard); a change back to visible while paused resumes the loop whenever
the stored `physics-paused` value does not say paused; every toggle click
writes the pause flag; and a stored `"true"` read at startup pauses the
simulation. -/
theorem C5_visibility_pause_resume :
    (∀ s : EngineState, s.running = true → s.isPaused = false →
      (visibilityChange true s).running = false) ∧
    (∀ s : EngineState, s.isPaused = true → s.stored ≠ some "true" →
      (visibilityChange false s).running = true ∧
      (visibilityChange false s).isPaused = false) ∧
    (∀ s : EngineState,
      (toggleClick s).stored = some (if s.isPaused then "false" else "true")) ∧
    (∀ s : EngineState, s.stored = some "true" →
      (setupPauseToggleLoad s).isPaused = true ∧
      (setupPauseToggleLoad s).running = false) := by
  refine ⟨?_, ?_, ?_, ?_⟩
  · intro s hrun hp
    simp [visibilityChange, hp, pauseSimulation]
  · intro s hp hst
    have h1 : visibilityChange false s = resumeSimulation s := by
      unfold visibilityChange
      rw [hp]
      simp [hst]
    rw [h1]
    unfold resumeSimulation startSimulation
    by_cases h : s.running <;> simp [h]
  · intro s
    by_cases h : s.isPaused <;>
      simp [toggleClick, h, resumeSimulation, pauseSimulation, startSimulation]
  · intro s hst
    simp [setupPauseToggleLoad, hst, pauseSimulation]

/-- Witness for C5: hiding the page while the loop runs unpaused cancels
the scheduled frame. -/
theorem C5_visibility_pause_resume_witness :
    (visibilityChange true exEngineRunning).running = false :=
  C5_visibility_pause_resume.1 exEngineRunning rfl rfl

/-- C10: `getMousePosition` returns `null` in the initial tracker state
(before any pointer event) and immediately after a `mouseleave` or
`touchend` event; when tracking is on it returns the stored (last recorded)
position, and a `mousemove` records the canvas-local coordinates; and
`applyMouseForce` leaves every rigid body unchanged while
`getMousePosition` is `null`. -/
theorem C10_mouse_position_tracking :
    getMousePosition trackerInit = none ∧
    (∀ s : TrackerState,
      getMousePosition (trackerStep s TrackerEvent.mouseleave) = none) ∧
    (∀ s : TrackerState,
      getMousePosition (trackerStep s TrackerEvent.touchend) = none) ∧
    (∀ (s : TrackerState) (cx cy rl rt : ℝ),
      getMousePosition (trackerStep s (TrackerEvent.mousemove cx cy rl rt)) =
        some (cx - rl, cy - rt)) ∧
    (∀ s : TrackerState, s.isTracking = true →
      getMousePosition s = some (s.mouseX, s.mouseY)) ∧
    (∀ (s : TrackerState) (radius : ℝ) (bodies : List RigidBody),
      getMousePosition s = none → applyMouseForce s radius bodies = bodies) := by
  refine ⟨rfl, ?_, ?_, ?_, ?_, ?_⟩
  · intro s; simp [getMousePosition, trackerStep]
  · intro s; simp [getMousePosition, trackerStep]
  · intro s cx cy rl rt; simp [getMousePosition, trackerStep]
  · intro s h; simp [getMousePosition, h]
  · intro s radius bodies h
    unfold applyMouseForce
    rw [h]

/-- Witness for C10: in the initial tracker state the steering pass leaves
a concrete body list unchanged. -/
theorem C10_mouse_position_tracking_witness :
    applyMouseForce trackerInit 250 [] = [] :=
  C10_mouse_position_tracking.2.2.2.2.2 trackerInit 250 [] rfl
